import Mathlib

/-!
Shallow embedding of osquery/events/darwin/fsevents.cpp
(FSEventsEventPublisher): path resolution in configure, the
flag-to-action table and callback bridge, the shouldFire filter and the
stream lifecycle state machine, together with theorems settling the
specification claims about them.
-/

namespace FSEvents

/-! ### Path model (boost::filesystem, as used by the source) -/

/-- Model of boost `path::is_absolute` on POSIX: the path starts with a
separator. -/
def isAbsolutePath (p : String) : Bool :=
  match p.data with
  | [] => false
  | c :: _ => c == '/'

/-- Model of boost `path::parent_path().string()`: everything before the
last separator; the parent of a single root-level component is the root. -/
def parentPath (p : String) : String :=
  match p.data.reverse.dropWhile (fun c => c != '/') with
  | [] => ""
  | [_] => "/"
  | _ :: rest => String.mk rest.reverse

/-- Model of boost `operator/` followed by `.string()`: append with a
separator when one is needed. -/
def joinPath (a b : String) : String :=
  if a = "" then b
  else if a.data.getLast? = some '/' then a ++ b
  else a ++ "/" ++ b

/-! ### Subscription context

`FSEventsSubscriptionContext`: `path`, `link_` (the original link path,
written at most once), `recursive`, `mask`.  The `link` field models
`link_`; the empty string models an unset `link_`
(`sub->link_.size() == 0`). -/

structure SubscriptionContext where
  path : String
  link : String
  recursive : Bool
  mask : Nat
  deriving DecidableEq

/-- `FSEVENTS_MAX_SYMLINK_DEPTH` from the source. -/
def FSEVENTS_MAX_SYMLINK_DEPTH : Nat := 5

/-! ### Path Resolver (the symlink-following loop in `configure`)

The filesystem is modelled as a partial map from a path to its symlink
target: `fs p = some t` means `fs::is_symlink(p)` holds and
`fs::read_symlink(p) = t`; `fs p = none` means the path is not a symlink
(including the error cases, which the source treats the same way). -/

/-- One iteration of the `while (link_depth++ < FSEVENTS_MAX_SYMLINK_DEPTH)`
body in `FSEventsEventPublisher::configure`: if the current path is a
symlink, record it in `link_` when `link_` is still empty, read the target,
anchor a relative target at `parent_path(link_)`, and replace the path. -/
def resolveHop (fs : String → Option String) (sub : SubscriptionContext) :
    SubscriptionContext :=
  match fs sub.path with
  | none => sub
  | some target =>
    let link := if sub.link = "" then sub.path else sub.link
    let newPath :=
      if isAbsolutePath target then target
      else joinPath (parentPath link) target
    { sub with path := newPath, link := link }

/-- `n` iterations of the resolver loop body.  When the current path is not
a symlink an iteration leaves the state unchanged, which coincides with the
`break` of the source loop. -/
def resolveN (fs : String → Option String) : Nat → SubscriptionContext →
    SubscriptionContext
  | 0, sub => sub
  | n + 1, sub => resolveN fs n (resolveHop fs sub)

/-- The full per-subscription resolution performed by `configure`: at most
`FSEVENTS_MAX_SYMLINK_DEPTH` hops. -/
def configureResolve (fs : String → Option String)
    (sub : SubscriptionContext) : SubscriptionContext :=
  resolveN fs FSEVENTS_MAX_SYMLINK_DEPTH sub

/-! ### FSEvents flag constants

Models of the CoreServices `FSEventStreamEventFlags` constants referenced
by the source (their platform values, from the FSEvents header). -/

def kFSEventStreamEventFlagMustScanSubDirs : Nat := 0x00000001
def kFSEventStreamEventFlagUserDropped : Nat := 0x00000002
def kFSEventStreamEventFlagRootChanged : Nat := 0x00000020
def kFSEventStreamEventFlagUnmount : Nat := 0x00000080
def kFSEventStreamEventFlagItemCreated : Nat := 0x00000100
def kFSEventStreamEventFlagItemRemoved : Nat := 0x00000200
def kFSEventStreamEventFlagItemInodeMetaMod : Nat := 0x00000400
def kFSEventStreamEventFlagItemRenamed : Nat := 0x00000800
def kFSEventStreamEventFlagItemModified : Nat := 0x00001000
def kFSEventStreamEventFlagItemChangeOwner : Nat := 0x00004000
def kFSEventStreamEventFlagItemXattrMod : Nat := 0x00008000

/-- `kMaskActions` from the source.  The source container is a
`std::map<FSEventStreamEventFlags, std::string>`, so iteration visits the
entries in ascending order of the flag key; this list is that iteration
order. -/
def kMaskActions : List (Nat × String) :=
  [(kFSEventStreamEventFlagMustScanSubDirs, "COLLISION_WITHIN"),
   (kFSEventStreamEventFlagRootChanged, "ROOT_CHANGED"),
   (kFSEventStreamEventFlagUnmount, "UNMOUNTED"),
   (kFSEventStreamEventFlagItemCreated, "CREATED"),
   (kFSEventStreamEventFlagItemRemoved, "DELETED"),
   (kFSEventStreamEventFlagItemInodeMetaMod, "ATTRIBUTES_MODIFIED"),
   (kFSEventStreamEventFlagItemRenamed, "MOVED_TO"),
   (kFSEventStreamEventFlagItemModified, "UPDATED"),
   (kFSEventStreamEventFlagItemChangeOwner, "ATTRIBUTES_MODIFIED"),
   (kFSEventStreamEventFlagItemXattrMod, "ATTRIBUTES_MODIFIED")]

/-! ### Event context -/

/-- `FSEventsEventContext`: the fields the callback fills in.  Native
handles (the stream reference) are modelled by identity as numbers. -/
structure EventContext where
  fsevent_stream : Nat
  fsevent_flags : Nat
  transaction_id : Nat
  path : String
  action : String
  deriving DecidableEq

/-! ### Callback Bridge -/

/-- The body of `FSEventsEventPublisher::Callback` for one index of the
batch: build the event record, walk `kMaskActions` firing a record per
matching bit (the record's fields at fire time), and fire one `UNKNOWN`
record when no bit matched.  The returned list is the sequence of fire
calls, in order. -/
def processOneEvent (stream flags tid : Nat) (path : String) :
    List EventContext :=
  let ec0 : EventContext :=
    { fsevent_stream := stream, fsevent_flags := flags,
      transaction_id := tid, path := path, action := "" }
  let fired := kMaskActions.foldl
    (fun acc a =>
      if flags &&& a.1 != 0 then acc ++ [{ ec0 with action := a.2 }]
      else acc) []
  if fired.isEmpty then [{ ec0 with action := "UNKNOWN" }] else fired

/-- `FSEventsEventPublisher::Callback`: the loop over the batch.  The
parallel C arrays are modelled as functions from the index; `numEvents` is
`num_events`.  The result is the concatenated sequence of fire calls. -/
def Callback (stream numEvents : Nat) (eventPaths : Nat → String)
    (eventFlags eventIds : Nat → Nat) : List EventContext :=
  (List.range numEvents).flatMap
    (fun i => processOneEvent stream (eventFlags i) (eventIds i)
      (eventPaths i))

/-! ### Subscription Filter (`shouldFire`) -/

/-- `matchesAt hay pat i` holds when `pat` occurs in `hay` at index `i`;
used to model `std::string::find`. -/
def matchesAt (hay pat : List Char) (i : Nat) : Bool :=
  decide ((hay.drop i).take pat.length = pat)

/-- Model of `std::string::find`: the least index at which the pattern
occurs, or `none` (`npos`). -/
def strFind (hay pat : String) : Option Nat :=
  (List.range (hay.length + 1)).find? (fun i => matchesAt hay.data pat.data i)

/-- The path test of `shouldFire`: for a recursive subscription,
`ec->path.find(sc->path) == 0`; otherwise the `fnmatch` glob test, with the
libc matcher supplied as the external function `fnm` (applied to the
pattern `sc->path + "*"` and the event path). -/
def pathMatch (fnm : String → String → Bool) (sc : SubscriptionContext)
    (ec : EventContext) : Bool :=
  if sc.recursive then strFind ec.path sc.path == some 0
  else fnm (sc.path ++ "*") ec.path

/-- `FSEventsEventPublisher::shouldFire`: the path test, then the mask
test (`sc->mask != 0 && !(ec->fsevent_flags & sc->mask)` rejects). -/
def shouldFire (fnm : String → String → Bool) (sc : SubscriptionContext)
    (ec : EventContext) : Bool :=
  if !(pathMatch fnm sc ec) then false
  else if sc.mask != 0 && (ec.fsevent_flags &&& sc.mask) == 0 then false
  else true

/-! ### Stream Lifecycle Manager

`PublisherState` models the publisher's mutable members: `run_loop_`,
`stream_`, `stream_started_`, `paths_`.  Native handles are identities
(numbers); `none` models a null handle.  `paths_` is a `std::set`, modelled
as a duplicate-free list (iteration order is irrelevant to the claims). -/

structure PublisherState where
  run_loop : Option Nat
  stream : Option Nat
  stream_started : Bool
  paths : List String
  deriving DecidableEq

/-- The publisher's members at construction. -/
def initialState : PublisherState :=
  { run_loop := none, stream := none, stream_started := false, paths := [] }

/-- The outcome of the native calls a `restart` makes:
`createResult` is what `FSEventStreamCreate` returns (`none` for null) and
`startOk` is what `FSEventStreamStart` returns. -/
structure NativeEnv where
  createResult : Option Nat
  startOk : Bool
  deriving DecidableEq

/-- `std::set::insert` on the modelled path set. -/
def insertPath (l : List String) (p : String) : List String :=
  if p ∈ l then l else l ++ [p]

/-- `FSEventsEventPublisher::stop`: if a stream exists, stop, unschedule,
invalidate and release it, clearing `stream_started_` and nulling
`stream_`.  `CFRunLoopStop` does not change any modelled member. -/
def stop (s : PublisherState) : PublisherState :=
  if s.stream.isSome then
    { s with stream := none, stream_started := false }
  else s

/-- `FSEventsEventPublisher::restart`: no-op without paths or a run loop;
otherwise stop the existing stream, then create a new one; on creation
success schedule it and start it, setting `stream_started_` only when
`FSEventStreamStart` succeeds. -/
def restart (env : NativeEnv) (s : PublisherState) : PublisherState :=
  if s.paths.isEmpty then s
  else if s.run_loop.isNone then s
  else
    let s1 := stop s
    match env.createResult with
    | none => { s1 with stream := none }
    | some h =>
      let s2 := { s1 with stream := some h }
      if env.startOk then { s2 with stream_started := true } else s2

/-- `FSEventsEventPublisher::configure`: rebuild `paths_` from scratch by
resolving every subscription's path and inserting it; return early when the
set is empty, otherwise `restart`.  Returns the mutated subscription list
together with the new publisher state. -/
def configure (fs : String → Option String) (env : NativeEnv)
    (subs : List SubscriptionContext) (s : PublisherState) :
    List SubscriptionContext × PublisherState :=
  let subs2 := subs.map (configureResolve fs)
  let newPaths := subs2.foldl (fun acc sub => insertPath acc sub.path) []
  let s1 := { s with paths := newPaths }
  if newPaths.isEmpty then (subs2, s1) else (subs2, restart env s1)

/-- `FSEventsEventPublisher::run`: on the first invocation capture the
current run loop and `restart`; `CFRunLoopRun` itself changes no modelled
member. -/
def run (loop : Nat) (env : NativeEnv) (s : PublisherState) :
    PublisherState :=
  if s.run_loop.isNone then restart env { s with run_loop := some loop }
  else s

/-- `FSEventsEventPublisher::end`: calls `stop`. -/
def endPub (s : PublisherState) : PublisherState := stop s

/-- `FSEventsEventPublisher::tearDown`: `stop`, then drop the run loop
reference. -/
def tearDown (s : PublisherState) : PublisherState :=
  { stop s with run_loop := none }

/-- `FSEventsEventPublisher::isStreamRunning`; `CFRunLoopIsWaiting` is the
external predicate `loopWaiting` on the loop identity. -/
def isStreamRunning (loopWaiting : Nat → Bool) (s : PublisherState) : Bool :=
  if s.stream.isNone || !s.stream_started then false
  else
    match s.run_loop with
    | none => false
    | some l => loopWaiting l

/-- `FSEventsEventPublisher::numSubscriptionedPaths`. -/
def numSubscriptionedPaths (s : PublisherState) : Nat := s.paths.length

/-- One external call into the lifecycle interface, with the native
outcomes and filesystem it observes. -/
inductive Op where
  | configureOp (fs : String → Option String) (env : NativeEnv)
      (subs : List SubscriptionContext)
  | restartOp (env : NativeEnv)
  | runOp (loop : Nat) (env : NativeEnv)
  | stopOp
  | endOp
  | tearDownOp

/-- Apply one lifecycle call to the publisher state. -/
def applyOp : Op → PublisherState → PublisherState
  | .configureOp fs env subs, s => (configure fs env subs s).2
  | .restartOp env, s => restart env s
  | .runOp loop env, s => run loop env s
  | .stopOp, s => stop s
  | .endOp, s => endPub s
  | .tearDownOp, s => tearDown s

/-- Run a sequence of lifecycle calls from a state. -/
def runOps (ops : List Op) (s : PublisherState) : PublisherState :=
  ops.foldl (fun s o => applyOp o s) s

/-! ### Lifecycle invariants -/

/-- After `stop`, the stream is never marked started, provided the state
satisfied the started-implies-stream invariant beforehand. -/
theorem stop_not_started (s : PublisherState)
    (h : s.stream_started = true → s.stream.isSome = true) :
    (stop s).stream_started = false := by
  unfold stop
  split
  · rfl
  · rename_i hns
    cases hb : s.stream_started
    · rfl
    · exact absurd (h hb) hns

/-- `stop` preserves the started-implies-stream invariant. -/
theorem stop_inv (s : PublisherState)
    (h : s.stream_started = true → s.stream.isSome = true) :
    (stop s).stream_started = true → (stop s).stream.isSome = true := by
  intro hh
  rw [stop_not_started s h] at hh
  exact Bool.noConfusion hh

/-- `restart` preserves the started-impies-stream invariant: `started` is
set only immediately after a non-null creation result. -/
theorem restart_inv (env : NativeEnv) (s : PublisherState)
    (h : s.stream_started = true → s.stream.isSome = true) :
    (restart env s).stream_started = true →
      (restart env s).stream.isSome = true := by
  unfold restart
  split
  · exact h
  split
  · exact h
  · cases hc : env.createResult with
    | none =>
      intro hh
      have hb : (stop s).stream_started = false := stop_not_started s h
      simp only [hc] at hh
      rw [show ({ stop s with stream := none } :
        PublisherState).stream_started = (stop s).stream_started from rfl,
        hb] at hh
      exact Bool.noConfusion hh
    | some hd =>
      simp only [hc]
      split
      · intro _; rfl
      · intro hh
        have hb : (stop s).stream_started = false := stop_not_started s h
        rw [show ({ stop s with stream := some hd } :
          PublisherState).stream_started = (stop s).stream_started from rfl,
          hb] at hh
        exact Bool.noConfusion hh

/-- Every lifecycle call preserves the started-implies-stream invariant. -/
theorem applyOp_inv (o : Op) (s : PublisherState)
    (h : s.stream_started = true → s.stream.isSome = true) :
    (applyOp o s).stream_started = true →
      (applyOp o s).stream.isSome = true := by
  cases o with
  | configureOp fs env subs =>
    show (configure fs env subs s).2.stream_started = true →
      (configure fs env subs s).2.stream.isSome = true
    unfold configure
    dsimp only
    split
    · exact h
    · exact restart_inv env _ h
  | restartOp env => exact restart_inv env s h
  | runOp loop env =>
    show (run loop env s).stream_started = true →
      (run loop env s).stream.isSome = true
    unfold run
    split
    · exact restart_inv env { s with run_loop := some loop } h
    · exact h
  | stopOp => exact stop_inv s h
  | endOp => exact stop_inv s h
  | tearDownOp =>
    show (tearDown s).stream_started = true → (tearDown s).stream.isSome = true
    intro hh
    rw [show (tearDown s).stream_started = (stop s).stream_started from rfl,
      stop_not_started s h] at hh
    exact Bool.noConfusion hh

/-- The started-implies-stream invariant holds along any call sequence. -/
theorem runOps_inv (ops : List Op) (s : PublisherState)
    (h : s.stream_started = true → s.stream.isSome = true) :
    (runOps ops s).stream_started = true →
      (runOps ops s).stream.isSome = true := by
  induction ops generalizing s with
  | nil => exact h
  | cons o tl ih => exact ih (applyOp o s) (applyOp_inv o s h)

/-- Claim C1 (counterexample): the invariant as stated — the stream handle
is non-null only when `started` is true — fails on a reachable state: after
`run` binds a loop and a `configure` with one subscription performs a
`restart` in which `FSEventStreamCreate` succeeds (handle 7) but
`FSEventStreamStart` fails, the handle is non-null while `started` is
false. -/
theorem c1_counterexample :
    (runOps
      [Op.runOp 1 { createResult := some 7, startOk := false },
       Op.configureOp (fun _ => none)
         { createResult := some 7, startOk := false }
         [{ path := "/tmp", link := "", recursive := false, mask := 0 }]]
      initialState).stream.isSome = true
    ∧ (runOps
      [Op.runOp 1 { createResult := some 7, startOk := false },
       Op.configureOp (fun _ => none)
         { createResult := some 7, startOk := false }
         [{ path := "/tmp", link := "", recursive := false, mask := 0 }]]
      initialState).stream_started = false := by
  constructor <;> rfl

/-- Claim C1 (amended): at every state reachable from the initial
publisher state by any sequence of configure/restart/run/stop/end/tearDown
calls, `started` is true only when the stream handle is non-null.  The
converse direction claimed by the spec fails when creation succeeds but the
native start fails, which leaves the handle non-null with `started`
false. -/
theorem c1_started_implies_stream (ops : List Op)
    (h : (runOps ops initialState).stream_started = true) :
    (runOps ops initialState).stream.isSome = true :=
  runOps_inv ops initialState (fun hh => Bool.noConfusion hh) h

/-- Witness for the amended claim C1: a run in which creation and start
both succeed reaches a started state, and the theorem yields a non-null
handle there. -/
theorem c1_started_implies_stream_witness :
    (runOps
      [Op.runOp 1 { createResult := some 7, startOk := true },
       Op.configureOp (fun _ => none)
         { createResult := some 7, startOk := true }
         [{ path := "/tmp", link := "", recursive := false, mask := 0 }]]
      initialState).stream_started = true
    ∧ (runOps
      [Op.runOp 1 { createResult := some 7, startOk := true },
       Op.configureOp (fun _ => none)
         { createResult := some 7, startOk := true }
         [{ path := "/tmp", link := "", recursive := false, mask := 0 }]]
      initialState).stream.isSome = true :=
  ⟨by rfl,
   c1_started_implies_stream
     [Op.runOp 1 { createResult := some 7, startOk := true },
      Op.configureOp (fun _ => none)
        { createResult := some 7, startOk := true }
        [{ path := "/tmp", link := "", recursive := false, mask := 0 }]]
     (by rfl)⟩

/-- Claim C8: `stop` is idempotent from any publisher state: a second
immediate `stop` produces exactly the same observable state (stream null,
started false, loop binding and path set unchanged). -/
theorem c8_stop_idempotent (s : PublisherState) : stop (stop s) = stop s := by
  unfold stop
  by_cases h : s.stream.isSome = true
  · simp [h]
  · simp [h]

/-- Claim C9: `configure` with zero subscriptions only clears the path
set — no restart happens and no native watch is created, whatever the
native environment would have returned — and from the initial publisher
state it leaves `numSubscriptionedPaths` at 0 and `isStreamRunning`
false. -/
theorem c9_empty_configure (fs : String → Option String) (env : NativeEnv)
    (loopWaiting : Nat → Bool) (s : PublisherState) :
    (configure fs env [] s).2 = { s with paths := [] }
    ∧ numSubscriptionedPaths (configure fs env [] initialState).2 = 0
    ∧ isStreamRunning loopWaiting (configure fs env [] initialState).2
        = false := by
  refine ⟨?_, ?_, ?_⟩ <;>
    simp [configure, numSubscriptionedPaths, isStreamRunning, initialState]

/-! ### Path Resolver theorems -/

/-- Once `link_` is set it is never overwritten by a hop. -/
theorem resolveHop_link_stable (fs : String → Option String)
    (sub : SubscriptionContext) (h : sub.link ≠ "") :
    (resolveHop fs sub).link = sub.link := by
  unfold resolveHop
  cases fs sub.path with
  | none => rfl
  | some t => simp [h]

/-- Once `link_` is set it is never overwritten by any number of hops. -/
theorem resolveN_link_stable (fs : String → Option String) (n : Nat)
    (sub : SubscriptionContext) (h : sub.link ≠ "") :
    (resolveN fs n sub).link = sub.link := by
  induction n generalizing sub with
  | zero => rfl
  | succ n ih =>
    rw [resolveN]
    have hs : (resolveHop fs sub).link = sub.link :=
      resolveHop_link_stable fs sub h
    rw [ih (resolveHop fs sub) (by rw [hs]; exact h), hs]

/-- Claim C2: in the resolver loop of `configure`, at every hop whose
current path is a symlink with a relative target, the target is anchored at
the parent directory of the path recorded in `link_` — which after the
first hop is invariably the first symlink of the chain (here the starting
path), not the immediately preceding hop — and the subscription's path
becomes that joined value. -/
theorem c2_relative_anchor (fs : String → Option String) (p0 t : String)
    (rec0 : Bool) (m0 : Nat) (k : Nat)
    (hp : p0 ≠ "") (h0 : (fs p0).isSome = true) (hk : 1 ≤ k)
    (ht : fs (resolveN fs k ⟨p0, "", rec0, m0⟩).path = some t)
    (hrel : isAbsolutePath t = false) :
    (resolveN fs k ⟨p0, "", rec0, m0⟩).link = p0
    ∧ (resolveHop fs (resolveN fs k ⟨p0, "", rec0, m0⟩)).path
        = joinPath (parentPath p0) t := by
  obtain ⟨k', rfl⟩ : ∃ k', k = k' + 1 :=
    ⟨k - 1, (Nat.succ_pred_eq_of_pos hk).symm⟩
  have h1 : (resolveHop fs ⟨p0, "", rec0, m0⟩).link = p0 := by
    unfold resolveHop
    cases hc : fs p0 with
    | none => rw [hc] at h0; exact Bool.noConfusion h0
    | some t0 => simp
  have hlink : (resolveN fs (k' + 1) ⟨p0, "", rec0, m0⟩).link = p0 := by
    rw [resolveN, resolveN_link_stable fs k' _ (by rw [h1]; exact hp), h1]
  refine ⟨hlink, ?_⟩
  unfold resolveHop
  rw [ht]
  simp [hlink, hp, hrel]

/-- Filesystem for the claim C2 witness: an absolute link followed by a
link with a relative target in a different directory. -/
def fsRelChain : String → Option String := fun p =>
  if p = "/a/L" then some "/b/M"
  else if p = "/b/M" then some "rel"
  else none

/-- Witness for claim C2: after the first (absolute) hop the current path
is `/b/M`, yet its relative target `rel` is anchored at `/a` — the parent
of the recorded link `/a/L`, not of the preceding hop — giving
`/a/rel`. -/
theorem c2_relative_anchor_witness :
    fsRelChain (resolveN fsRelChain 1 ⟨"/a/L", "", false, 0⟩).path
      = some "rel"
    ∧ isAbsolutePath "rel" = false
    ∧ ((resolveN fsRelChain 1 ⟨"/a/L", "", false, 0⟩).link = "/a/L"
       ∧ (resolveHop fsRelChain
            (resolveN fsRelChain 1 ⟨"/a/L", "", false, 0⟩)).path
          = joinPath (parentPath "/a/L") "rel") :=
  ⟨by decide, by decide,
   c2_relative_anchor fsRelChain "/a/L" "rel" false 0 1
     (by decide) (by decide) (by decide) (by decide) (by decide)⟩

/-- Claim C4: symlink resolution in `configure` follows at most 5 hops: on
a chain of six links `a→b→c→d→e→f→g` with absolute targets, the resolved
subscription path is `f` — the fifth hop, itself still a symlink — not the
final target `g`, and the recorded original link path is `a`. -/
theorem c4_five_hop_bound (fs : String → Option String)
    (a b c d e f g : String) (rec0 : Bool) (m0 : Nat)
    (ha : a ≠ "")
    (h1 : fs a = some b) (h2 : fs b = some c) (h3 : fs c = some d)
    (h4 : fs d = some e) (h5 : fs e = some f) (h6 : fs f = some g)
    (ab1 : isAbsolutePath b = true) (ab2 : isAbsolutePath c = true)
    (ab3 : isAbsolutePath d = true) (ab4 : isAbsolutePath e = true)
    (ab5 : isAbsolutePath f = true) (hfg : f ≠ g) :
    configureResolve fs ⟨a, "", rec0, m0⟩ =
      { path := f, link := a, recursive := rec0, mask := m0 }
    ∧ (fs (configureResolve fs ⟨a, "", rec0, m0⟩).path).isSome = true
    ∧ (configureResolve fs ⟨a, "", rec0, m0⟩).path ≠ g := by
  have hres : configureResolve fs ⟨a, "", rec0, m0⟩ =
      { path := f, link := a, recursive := rec0, mask := m0 } := by
    show resolveN fs 5 _ = _
    simp [resolveN, resolveHop, h1, h2, h3, h4, h5,
      ab1, ab2, ab3, ab4, ab5, ha]
  refine ⟨hres, ?_, ?_⟩
  · rw [hres]
    show (fs f).isSome = true
    rw [h6]
    rfl
  · rw [hres]
    exact hfg

/-- Filesystem for the claim C4 witness: a chain of six absolute links
ending at a non-link target. -/
def fsSixChain : String → Option String := fun p =>
  if p = "/l/1" then some "/l/2"
  else if p = "/l/2" then some "/l/3"
  else if p = "/l/3" then some "/l/4"
  else if p = "/l/4" then some "/l/5"
  else if p = "/l/5" then some "/l/6"
  else if p = "/l/6" then some "/l/t"
  else none

/-- Witness for claim C4 on a concrete six-link chain: resolution stops at
`/l/6`, which is still a symlink, with the original link path `/l/1`. -/
theorem c4_five_hop_bound_witness :
    fsSixChain "/l/1" = some "/l/2"
    ∧ (configureResolve fsSixChain ⟨"/l/1", "", true, 3⟩ =
        { path := "/l/6", link := "/l/1", recursive := true, mask := 3 }
      ∧ (fsSixChain
          (configureResolve fsSixChain ⟨"/l/1", "", true, 3⟩).path).isSome
            = true
      ∧ (configureResolve fsSixChain ⟨"/l/1", "", true, 3⟩).path ≠ "/l/t") :=
  ⟨by decide,
   c4_five_hop_bound fsSixChain "/l/1" "/l/2" "/l/3" "/l/4" "/l/5" "/l/6"
     "/l/t" true 3 (by decide) (by decide) (by decide) (by decide)
     (by decide) (by decide) (by decide) (by decide) (by decide)
     (by decide) (by decide) (by decide) (by decide)⟩

/-! ### Callback Bridge theorems -/

/-- The firing fold of the callback appends one record per table entry
whose bit is set, in table order. -/
theorem foldl_fire_append (stream flags tid : Nat) (path : String)
    (tbl : List (Nat × String)) (acc : List EventContext) :
    tbl.foldl (fun acc a =>
        if flags &&& a.1 != 0 then
          acc ++ [{ fsevent_stream := stream, fsevent_flags := flags,
                    transaction_id := tid, path := path, action := a.2 }]
        else acc) acc
      = acc ++ (tbl.filter (fun a => flags &&& a.1 != 0)).map
          (fun a => { fsevent_stream := stream, fsevent_flags := flags,
                      transaction_id := tid, path := path,
                      action := a.2 }) := by
  induction tbl generalizing acc with
  | nil => simp
  | cons hd tl ih =>
    rw [List.foldl_cons, List.filter_cons]
    cases hc : (flags &&& hd.1 != 0) with
    | false =>
      simp only [hc, Bool.false_eq_true, if_false]
      exact ih acc
    | true =>
      simp only [hc, eq_self_iff_true, if_true]
      rw [ih, List.map_cons]
      simp

/-- Closed form of the per-event callback body: the fire-call sequence is
the matching table entries in table order, or a single `UNKNOWN` record
when none match. -/
theorem processOneEvent_fired (stream flags tid : Nat) (path : String) :
    processOneEvent stream flags tid path
      = if (kMaskActions.filter (fun a => flags &&& a.1 != 0)).isEmpty then
          [{ fsevent_stream := stream, fsevent_flags := flags,
             transaction_id := tid, path := path, action := "UNKNOWN" }]
        else
          (kMaskActions.filter (fun a => flags &&& a.1 != 0)).map
            (fun a => { fsevent_stream := stream, fsevent_flags := flags,
                        transaction_id := tid, path := path,
                        action := a.2 }) := by
  unfold processOneEvent
  dsimp only
  rw [foldl_fire_append]
  cases hfil : kMaskActions.filter (fun a => flags &&& a.1 != 0) with
  | nil => simp [hfil]
  | cons a l => simp [hfil]

/-- The action labels fired for one raw event, in order. -/
theorem processOneEvent_actions (stream flags tid : Nat) (path : String) :
    (processOneEvent stream flags tid path).map EventContext.action
      = if (kMaskActions.filter (fun a => flags &&& a.1 != 0)).isEmpty then
          ["UNKNOWN"]
        else (kMaskActions.filter (fun a => flags &&& a.1 != 0)).map
          Prod.snd := by
  rw [processOneEvent_fired]
  split
  · rfl
  · rw [List.map_map]
    rfl

/-- The flag-to-action table iterates in strictly ascending flag order. -/
theorem kMaskActions_sorted :
    kMaskActions.Pairwise (fun a b => a.1 < b.1) := by decide

/-- Claim C3: when two or more table bits are present in a raw event's
flags, one fire call is emitted per matching entry, in the table's
ascending-bit order; in particular inode-metadata-change plus
content-modified yields exactly `ATTRIBUTES_MODIFIED` then `UPDATED`. -/
theorem c3_multiplexed_actions (stream tid : Nat) (path : String)
    (flags : Nat)
    (h : 2 ≤ (kMaskActions.filter (fun a => flags &&& a.1 != 0)).length) :
    (processOneEvent stream flags tid path).map EventContext.action
        = (kMaskActions.filter (fun a => flags &&& a.1 != 0)).map Prod.snd
    ∧ (kMaskActions.filter (fun a => flags &&& a.1 != 0)).Pairwise
        (fun a b => a.1 < b.1)
    ∧ (processOneEvent stream
        (kFSEventStreamEventFlagItemInodeMetaMod |||
          kFSEventStreamEventFlagItemModified) tid path).map
        EventContext.action = ["ATTRIBUTES_MODIFIED", "UPDATED"] := by
  refine ⟨?_, ?_, ?_⟩
  · rw [processOneEvent_actions, if_neg]
    intro hemp
    rw [List.isEmpty_iff] at hemp
    rw [hemp] at h
    exact absurd h (by decide)
  · exact List.Pairwise.sublist (List.filter_sublist _) kMaskActions_sorted
  · rw [processOneEvent_actions]
    rfl

/-- Witness for claim C3 at the concrete flag value with the
inode-metadata bit and the content-modified bit set. -/
theorem c3_multiplexed_actions_witness :
    2 ≤ (kMaskActions.filter (fun a =>
        (kFSEventStreamEventFlagItemInodeMetaMod |||
          kFSEventStreamEventFlagItemModified) &&& a.1 != 0)).length
    ∧ ((processOneEvent 1
          (kFSEventStreamEventFlagItemInodeMetaMod |||
            kFSEventStreamEventFlagItemModified) 9 "/w").map
          EventContext.action
        = (kMaskActions.filter (fun a =>
            (kFSEventStreamEventFlagItemInodeMetaMod |||
              kFSEventStreamEventFlagItemModified) &&& a.1 != 0)).map
            Prod.snd
      ∧ (kMaskActions.filter (fun a =>
          (kFSEventStreamEventFlagItemInodeMetaMod |||
            kFSEventStreamEventFlagItemModified) &&& a.1 != 0)).Pairwise
          (fun a b => a.1 < b.1)
      ∧ (processOneEvent 1
          (kFSEventStreamEventFlagItemInodeMetaMod |||
            kFSEventStreamEventFlagItemModified) 9 "/w").map
          EventContext.action = ["ATTRIBUTES_MODIFIED", "UPDATED"]) :=
  ⟨by decide,
   c3_multiplexed_actions 1 9 "/w"
     (kFSEventStreamEventFlagItemInodeMetaMod |||
       kFSEventStreamEventFlagItemModified) (by decide)⟩

/-- Claim C7: a raw event whose flags contain none of the table bits
produces exactly one fire call, with action `UNKNOWN`. -/
theorem c7_unknown_action (stream tid : Nat) (path : String) (flags : Nat)
    (h : ∀ a ∈ kMaskActions, flags &&& a.1 = 0) :
    processOneEvent stream flags tid path
      = [{ fsevent_stream := stream, fsevent_flags := flags,
           transaction_id := tid, path := path, action := "UNKNOWN" }]
    ∧ (processOneEvent stream flags tid path).length = 1 := by
  have hfil : kMaskActions.filter (fun a => flags &&& a.1 != 0) = [] := by
    rw [List.filter_eq_nil_iff]
    intro a ha
    simp [h a ha]
  constructor
  · rw [processOneEvent_fired, hfil]
    rfl
  · rw [processOneEvent_fired, hfil]
    rfl

/-- Witness for claim C7 at a flag value (the dropped-events bit) that is
outside the table. -/
theorem c7_unknown_action_witness :
    (∀ a ∈ kMaskActions, kFSEventStreamEventFlagUserDropped &&& a.1 = 0)
    ∧ (processOneEvent 1 kFSEventStreamEventFlagUserDropped 4 "/w"
        = [{ fsevent_stream := 1,
             fsevent_flags := kFSEventStreamEventFlagUserDropped,
             transaction_id := 4, path := "/w", action := "UNKNOWN" }]
      ∧ (processOneEvent 1 kFSEventStreamEventFlagUserDropped 4 "/w").length
          = 1) :=
  ⟨by decide, c7_unknown_action 1 4 "/w" kFSEventStreamEventFlagUserDropped
    (by decide)⟩

/-- Claim C10: every fire call the callback emits for a given batch index
carries that index's path, raw flags, transaction id and stream handle
unchanged — only the action differs between the fire calls of one raw
event — and is part of the callback's output for that batch. -/
theorem c10_frame_fields (stream numEvents : Nat)
    (eventPaths : Nat → String) (eventFlags eventIds : Nat → Nat)
    (i : Nat) (ec : EventContext) (hi : i < numEvents)
    (hec : ec ∈ processOneEvent stream (eventFlags i) (eventIds i)
      (eventPaths i)) :
    ec.fsevent_stream = stream ∧ ec.fsevent_flags = eventFlags i
    ∧ ec.transaction_id = eventIds i ∧ ec.path = eventPaths i
    ∧ ec ∈ Callback stream numEvents eventPaths eventFlags eventIds := by
  have hfields : ec.fsevent_stream = stream
      ∧ ec.fsevent_flags = eventFlags i
      ∧ ec.transaction_id = eventIds i ∧ ec.path = eventPaths i := by
    rw [processOneEvent_fired] at hec
    split at hec
    · have he := List.mem_singleton.mp hec
      subst he
      exact ⟨rfl, rfl, rfl, rfl⟩
    · obtain ⟨a, ha, rfl⟩ := List.mem_map.mp hec
      exact ⟨rfl, rfl, rfl, rfl⟩
  refine ⟨hfields.1, hfields.2.1, hfields.2.2.1, hfields.2.2.2, ?_⟩
  unfold Callback
  exact List.mem_flatMap.mpr ⟨i, List.mem_range.mpr hi, hec⟩

/-- Witness for claim C10: the single `UNKNOWN` record of a one-event
batch with flag value 0 carries the batch's field values. -/
theorem c10_frame_fields_witness :
    ((0 : Nat) < 1
      ∧ ({ fsevent_stream := 1, fsevent_flags := 0, transaction_id := 5,
           path := "/w", action := "UNKNOWN" } : EventContext)
          ∈ processOneEvent 1 0 5 "/w")
    ∧ (({ fsevent_stream := 1, fsevent_flags := 0, transaction_id := 5,
          path := "/w", action := "UNKNOWN" } : EventContext).fsevent_stream
            = 1
      ∧ ({ fsevent_stream := 1, fsevent_flags := 0, transaction_id := 5,
           path := "/w", action := "UNKNOWN" } : EventContext).fsevent_flags
            = 0
      ∧ ({ fsevent_stream := 1, fsevent_flags := 0, transaction_id := 5,
           path := "/w", action := "UNKNOWN" } : EventContext).transaction_id
            = 5
      ∧ ({ fsevent_stream := 1, fsevent_flags := 0, transaction_id := 5,
           path := "/w", action := "UNKNOWN" } : EventContext).path = "/w"
      ∧ ({ fsevent_stream := 1, fsevent_flags := 0, transaction_id := 5,
           path := "/w", action := "UNKNOWN" } : EventContext)
          ∈ Callback 1 1 (fun _ => "/w") (fun _ => 0) (fun _ => 5)) :=
  ⟨⟨by decide, by decide⟩,
   c10_frame_fields 1 1 (fun _ => "/w") (fun _ => 0) (fun _ => 5) 0 _
     (by decide) (by decide)⟩

/-! ### Subscription Filter theorems -/

/-- `strFind` (the model of `std::string::find`) returns 0 exactly when
the pattern is a prefix of the searched string. -/
theorem strFind_zero_iff (hay pat : String) :
    strFind hay pat = some 0 ↔ pat.data <+: hay.data := by
  unfold strFind
  constructor
  · intro h
    have hp := List.find?_some h
    unfold matchesAt at hp
    rw [decide_eq_true_eq] at hp
    rw [List.prefix_iff_eq_take]
    simpa using hp.symm
  · intro h
    have h0 : matchesAt hay.data pat.data 0 = true := by
      unfold matchesAt
      rw [decide_eq_true_eq]
      rw [List.prefix_iff_eq_take] at h
      simpa using h.symm
    rw [List.range_succ_eq_map]
    exact List.find?_cons_of_pos _ h0

/-- Claim C5: for a recursive subscription with mask 0, `shouldFire` holds
exactly when the event path begins with the subscription path at offset
zero (plain prefix, no separator normalization), for any glob matcher. -/
theorem c5_recursive_mask_zero (fnm : String → String → Bool)
    (sc : SubscriptionContext) (ec : EventContext)
    (hrec : sc.recursive = true) (hmask : sc.mask = 0) :
    shouldFire fnm sc ec = true ↔ sc.path.data <+: ec.path.data := by
  unfold shouldFire pathMatch
  rw [hrec, hmask]
  simp [strFind_zero_iff]

/-- Witness for claim C5: a recursive, mask-0 subscription on `/var/log`
and an event under it. -/
theorem c5_recursive_mask_zero_witness :
    shouldFire (fun _ _ => false) ⟨"/var/log", "", true, 0⟩
        ⟨1, 77, 9, "/var/log/x", ""⟩ = true
      ↔ ("/var/log" : String).data <+: ("/var/log/x" : String).data :=
  c5_recursive_mask_zero (fun _ _ => false) ⟨"/var/log", "", true, 0⟩
    ⟨1, 77, 9, "/var/log/x", ""⟩ rfl rfl

/-- Claim C6: with a nonzero mask and no overlap between the event's raw
flags and the mask, `shouldFire` is false no matter what the path test
(recursive or glob, for any glob matcher) would have said. -/
theorem c6_mask_mismatch (fnm : String → String → Bool)
    (sc : SubscriptionContext) (ec : EventContext)
    (h1 : sc.mask ≠ 0) (h2 : ec.fsevent_flags &&& sc.mask = 0) :
    shouldFire fnm sc ec = false := by
  unfold shouldFire
  by_cases hp : pathMatch fnm sc ec = true
  · simp [hp, h1, h2]
  · rw [Bool.not_eq_true] at hp
    simp [hp]

/-- Witness for claim C6: a glob matcher that accepts everything, a
subscription with mask 4 and an event with flags 3 still yield false. -/
theorem c6_mask_mismatch_witness :
    ((4 : Nat) ≠ 0 ∧ (3 : Nat) &&& 4 = 0)
    ∧ shouldFire (fun _ _ => true) ⟨"/q", "", false, 4⟩
        ⟨1, 3, 0, "/zzz", ""⟩ = false :=
  ⟨⟨by decide, by decide⟩,
   c6_mask_mismatch (fun _ _ => true) ⟨"/q", "", false, 4⟩
     ⟨1, 3, 0, "/zzz", ""⟩ (by decide) (by decide)⟩

end FSEvents
